import Mathlib

/-!
Shallow embedding of `manager/manager/cluster_dao.py` from the
qiskit-serverless repository: a data-access object that manages Ray
clusters by shelling out to `kubectl` and `helm`.

The external world is modelled by an executor, a function from the
command argument vector to the completed process (stdout, stderr,
exit code).  Python exceptions are modelled with `Except`: a value
`.error e` is a raised exception `e` propagating to the caller.
-/

/-- Outcome of a completed external process as captured by
`subprocess.run(..., stdout=PIPE, stderr=PIPE, universal_newlines=True)`:
decoded stdout text, decoded stderr text, and the exit code. -/
structure ProcResult where
  stdout : String
  stderr : String
  returncode : Int
deriving DecidableEq, Repr

/-- An executor: the environment that, for an argument vector, yields the
completed process.  Each DAO operation performs exactly one such call. -/
abbrev Exec := List String → ProcResult

/-- The characters Python's `str.strip()` / `str.split()` treat as
whitespace, restricted to the ASCII range (space, tab, newline, carriage
return, vertical tab, form feed). -/
def pyIsSpace (c : Char) : Bool :=
  c = ' ' || c = '\t' || c = '\n' || c = '\r' || c = '\x0b' || c = '\x0c'

/-- Python `s.strip()` with no argument: remove leading and trailing
whitespace characters. -/
def pyStrip (s : String) : String :=
  ⟨((s.data.dropWhile pyIsSpace).reverse.dropWhile pyIsSpace).reverse⟩

/-- Split a character list at every character satisfying `p`, keeping
empty pieces; the empty list yields `[[]]`. -/
def splitOnPred (p : Char → Bool) : List Char → List (List Char)
  | [] => [[]]
  | c :: rest =>
      match splitOnPred p rest, p c with
      | r, true => [] :: r
      | [], false => [[c]]
      | h :: t, false => (c :: h) :: t

/-- Python `s.split("\n")`: split on every occurrence of the one-character
separator, keeping empty pieces; the empty string yields `[""]`. -/
def pySplitNl (s : String) : List String :=
  (splitOnPred (fun c => c = '\n') s.data).map (fun l => ⟨l⟩)

/-- Python `s.split()` with no argument: split on whitespace and drop
empty tokens; the empty string yields `[]`. -/
def pySplitWs (s : String) : List String :=
  ((splitOnPred pyIsSpace s.data).filter (fun l => !l.isEmpty)).map (fun l => ⟨l⟩)

/-- Helper for `pyIn`: does `pat` occur as a contiguous sublist? -/
def strContainsAux (pat : List Char) : List Char → Bool
  | [] => pat.isEmpty
  | c :: rest => pat.isPrefixOf (c :: rest) || strContainsAux pat rest

/-- Python substring membership `pat in s`: case-sensitive contiguous
substring test. -/
def pyIn (pat s : String) : Bool :=
  strContainsAux pat.data s.data

/-- Modelled from the spec: the exception classes `CommandError` and
`NotFoundError` are imported from `manager.errors`, a module of this
repository that is not under src/.  Per the spec, `CommandError` carries
the raw stderr text and `NotFoundError` carries the text it was
re-raised from, and the text of either error (Python `str(err)`) is that
carried message.  `indexError` additionally embeds the built-in Python
`IndexError` raised by an out-of-bounds list subscript such as
`host_port[1]`; it is not caught by `except CommandError`. -/
inductive PyError where
  | commandError (msg : String)
  | notFoundError (msg : String)
  | indexError
deriving DecidableEq, Repr

/-- Python `str(err)` for the errors above: the carried message text
(`IndexError` carries none of interest here). -/
def PyError.text : PyError → String
  | .commandError m => m
  | .notFoundError m => m
  | .indexError => ""

/-- A cluster record as built by the DAO (a Python dict; keys the code
does not set are `none`). -/
structure Cluster where
  name : String
  host : Option String := none
  ip : Option String := none
  port : Option String := none
deriving DecidableEq, Repr

/-- The payload of `ClusterDAO.create`, embedded by the one key the code
reads: `data["name"]`. -/
structure CreatePayload where
  name : String
deriving DecidableEq, Repr

namespace ClusterDAO

/-- `ClusterDAO.run`: execute a command; on exit code 0 return stdout
unmodified, otherwise raise `CommandError` carrying stderr.  The logging
side effect and the fixed working directory `cwd="ray"` have no bearing
on the returned value and are not modelled. -/
def run (exec : Exec) (command : List String) : Except PyError String :=
  let result := exec command
  if result.returncode = 0 then .ok result.stdout
  else .error (.commandError result.stderr)

/-- The argument vector `get_clusters_command` built by
`ClusterDAO.get_all`. -/
def get_clusters_command (ns : String) : List String :=
  ["kubectl", "-n", ns, "get", "rayclusters", "--no-headers", "-o",
   "custom-columns=NAME:metadata.name"]

/-- The argument vector built by `ClusterDAO.get` (also named
`get_clusters_command` in the source; renamed here to avoid the clash
with the `get_all` vector).  `str(name)` is the identity on strings. -/
def get_service_command (ns name : String) : List String :=
  ["kubectl", "-n", ns, "get", "service", name ++ "-ray-head", "-o",
   "custom-columns=IP:.spec.clusterIP,PORT:.spec.ports[0].targetPort",
   "--no-headers"]

/-- The argument vector `create_cluster_command` built by
`ClusterDAO.create`. -/
def create_cluster_command (ns dataName : String) : List String :=
  ["helm", "-n", ns, "install", dataName, "--set", "clusterOnly=true",
   ".", "--create-namespace"]

/-- The argument vector `delete_cluster_command` built by
`ClusterDAO.delete`. -/
def delete_cluster_command (ns name : String) : List String :=
  ["kubectl", "-n", ns, "delete", "rayclusters", name]

/-- `ClusterDAO.get_all`: run the list query and turn every line of
`result.strip().split("\n")` into a record `{"name": line}`.  A failure
of `run` propagates (no `try` in the source). -/
def get_all (exec : Exec) (ns : String) : Except PyError (List Cluster) :=
  match run exec (get_clusters_command ns) with
  | .error e => .error e
  | .ok result =>
      .ok ((pySplitNl (pyStrip result)).map (fun line => { name := line }))

/-- `ClusterDAO.get`: run the service query; on success split the
stripped stdout on whitespace and read tokens 0 and 1 (an out-of-bounds
read raises `IndexError`, which `except CommandError` does not catch);
on `CommandError` whose text contains `"NotFound"`, re-raise as
`NotFoundError` with that text, otherwise re-raise the same error. -/
def get (exec : Exec) (ns name : String) : Except PyError Cluster :=
  match run exec (get_service_command ns name) with
  | .ok result =>
      let host_port := pySplitWs (pyStrip result)
      match host_port.get? 0, host_port.get? 1 with
      | some ip0, some port1 =>
          .ok { name := name, host := some (name ++ "-ray-head"),
                ip := some ip0, port := some port1 }
      | _, _ => .error .indexError
  | .error err =>
      if pyIn "NotFound" err.text then .error (.notFoundError err.text)
      else .error err

/-- `ClusterDAO.create`: run the helm install; on success return
`{"name": data["name"]}` ignoring stdout; a failure of `run` propagates
(no `try` in the source). -/
def create (exec : Exec) (ns : String) (data : CreatePayload) :
    Except PyError Cluster :=
  match run exec (create_cluster_command ns data.name) with
  | .error e => .error e
  | .ok _ => .ok { name := data.name }

/-- `ClusterDAO.delete`: run the delete command; success returns no
value (Python `None`); a `CommandError` whose text contains `"NotFound"`
is re-raised as `NotFoundError` with that text, any other `CommandError`
is re-raised unchanged. -/
def delete (exec : Exec) (ns name : String) : Except PyError Unit :=
  match run exec (delete_cluster_command ns name) with
  | .ok _ => .ok ()
  | .error err =>
      if pyIn "NotFound" err.text then .error (.notFoundError err.text)
      else .error err

end ClusterDAO

/-- On exit code 0, `run` returns the captured stdout. -/
theorem ClusterDAO.run_ok (exec : Exec) (command : List String)
    (h : (exec command).returncode = 0) :
    ClusterDAO.run exec command = .ok (exec command).stdout := by
  simp [ClusterDAO.run, h]

/-- On a non-zero exit code, `run` raises `CommandError` with the
captured stderr. -/
theorem ClusterDAO.run_fail (exec : Exec) (command : List String)
    (h : (exec command).returncode ≠ 0) :
    ClusterDAO.run exec command = .error (.commandError (exec command).stderr) := by
  simp [ClusterDAO.run, h]

/-- When the service query fails with stderr `t`, `get` reduces to the
substring classification of `t`. -/
theorem ClusterDAO.get_classify (exec : Exec) (ns name t : String)
    (h : (exec (ClusterDAO.get_service_command ns name)).returncode ≠ 0)
    (hs : (exec (ClusterDAO.get_service_command ns name)).stderr = t) :
    ClusterDAO.get exec ns name =
      (if pyIn "NotFound" t then .error (.notFoundError t)
       else .error (.commandError t)) := by
  unfold ClusterDAO.get
  rw [ClusterDAO.run_fail _ _ h, hs]
  rfl

/-- When the delete command fails with stderr `t`, `delete` reduces to
the substring classification of `t`. -/
theorem ClusterDAO.delete_classify (exec : Exec) (ns name t : String)
    (h : (exec (ClusterDAO.delete_cluster_command ns name)).returncode ≠ 0)
    (hs : (exec (ClusterDAO.delete_cluster_command ns name)).stderr = t) :
    ClusterDAO.delete exec ns name =
      (if pyIn "NotFound" t then .error (.notFoundError t)
       else .error (.commandError t)) := by
  unfold ClusterDAO.delete
  rw [ClusterDAO.run_fail _ _ h, hs]
  rfl

/-- When the service query succeeds, `get` reduces to the token lookup
on the whitespace-split stripped stdout. -/
theorem ClusterDAO.get_ok_eq (exec : Exec) (ns name : String)
    (h : (exec (ClusterDAO.get_service_command ns name)).returncode = 0) :
    ClusterDAO.get exec ns name =
      (match
        (pySplitWs (pyStrip (exec (ClusterDAO.get_service_command ns name)).stdout)).get? 0,
        (pySplitWs (pyStrip (exec (ClusterDAO.get_service_command ns name)).stdout)).get? 1 with
      | some ip0, some port1 =>
          .ok { name := name, host := some (name ++ "-ray-head"),
                ip := some ip0, port := some port1 }
      | _, _ => .error .indexError) := by
  unfold ClusterDAO.get
  rw [ClusterDAO.run_ok _ _ h]

/-- C1: for every cluster name, if the command behind `get` fails and the
resulting `CommandError` text contains the substring `"NotFound"`, `get`
raises `NotFoundError` carrying that text; with any other failure text
the original `CommandError` propagates unchanged. -/
theorem c1_get_error_classification (ns name t : String) (exec : Exec)
    (hfail : (exec (ClusterDAO.get_service_command ns name)).returncode ≠ 0)
    (hstderr : (exec (ClusterDAO.get_service_command ns name)).stderr = t) :
    (pyIn "NotFound" t = true →
      ClusterDAO.get exec ns name = .error (.notFoundError t)) ∧
    (pyIn "NotFound" t = false →
      ClusterDAO.get exec ns name = .error (.commandError t)) := by
  rw [ClusterDAO.get_classify exec ns name t hfail hstderr]
  constructor <;> intro h <;> simp [h]

/-- C1 witness: a failing process whose stderr contains `"NotFound"`
yields `NotFoundError`; stderr `"connection refused"` yields the
unchanged `CommandError`. -/
theorem c1_witness :
    ClusterDAO.get
        (fun _ => ⟨"", "Error from server (NotFound): no service", 1⟩) "ns" "missing" =
      .error (.notFoundError "Error from server (NotFound): no service") ∧
    ClusterDAO.get (fun _ => ⟨"", "connection refused", 1⟩) "ns" "missing" =
      .error (.commandError "connection refused") :=
  ⟨(c1_get_error_classification "ns" "missing" "Error from server (NotFound): no service"
      (fun _ => ⟨"", "Error from server (NotFound): no service", 1⟩)
      (by decide) rfl).1 (by decide),
   (c1_get_error_classification "ns" "missing" "connection refused"
      (fun _ => ⟨"", "connection refused", 1⟩)
      (by decide) rfl).2 (by decide)⟩

/-- C2 counterexample: the claim says empty command output yields the
empty list, but `get_all` turns `"".strip().split("\n") = [""]` into one
record with an empty name. -/
theorem c2_counterexample :
    ClusterDAO.get_all (fun _ => ⟨"", "", 0⟩) "ns" = .ok [{ name := "" }] ∧
    ClusterDAO.get_all (fun _ => ⟨"", "", 0⟩) "ns" ≠ .ok ([] : List Cluster) := by
  constructor
  · rfl
  · intro h
    have h2 : (Except.ok [{ name := "" }] : Except PyError (List Cluster)) = .ok [] := h
    simp at h2

/-- C2 amended: on a successful command, `get_all` returns one record per
line of the newline-split stripped stdout (empty lines included); on
output `"a\nb\nc\n"` this is `[{name:"a"},{name:"b"},{name:"c"}]`, and on
empty output it is `[{name:""}]`, not the empty list. -/
theorem c2_get_all_parses_lines (ns : String) (exec : Exec)
    (hok : (exec (ClusterDAO.get_clusters_command ns)).returncode = 0) :
    ClusterDAO.get_all exec ns =
      .ok ((pySplitNl (pyStrip (exec (ClusterDAO.get_clusters_command ns)).stdout)).map
        (fun line => { name := line })) ∧
    ((exec (ClusterDAO.get_clusters_command ns)).stdout = "a\nb\nc\n" →
      ClusterDAO.get_all exec ns =
        .ok [{ name := "a" }, { name := "b" }, { name := "c" }]) ∧
    ((exec (ClusterDAO.get_clusters_command ns)).stdout = "" →
      ClusterDAO.get_all exec ns = .ok [{ name := "" }]) := by
  have hbase : ClusterDAO.get_all exec ns =
      .ok ((pySplitNl (pyStrip (exec (ClusterDAO.get_clusters_command ns)).stdout)).map
        (fun line => { name := line })) := by
    unfold ClusterDAO.get_all
    rw [ClusterDAO.run_ok _ _ hok]
  refine ⟨hbase, fun h => ?_, fun h => ?_⟩ <;> rw [hbase, h] <;> rfl

/-- C2 witness: the three-line output at a concrete executor. -/
theorem c2_witness :
    ClusterDAO.get_all (fun _ => ⟨"a\nb\nc\n", "", 0⟩) "ns" =
      .ok [{ name := "a" }, { name := "b" }, { name := "c" }] :=
  (c2_get_all_parses_lines "ns" (fun _ => ⟨"a\nb\nc\n", "", 0⟩) (by decide)).2.1 rfl

/-- C3: when the service query succeeds and its stdout splits into the
two whitespace-separated tokens `ip0` and `port1`, `get` returns the
record with the echoed name, the `-ray-head` host, and those tokens. -/
theorem c3_get_success (ns name ip0 port1 : String) (exec : Exec)
    (hok : (exec (ClusterDAO.get_service_command ns name)).returncode = 0)
    (htok : pySplitWs (pyStrip (exec (ClusterDAO.get_service_command ns name)).stdout) =
      [ip0, port1]) :
    ClusterDAO.get exec ns name =
      .ok { name := name, host := some (name ++ "-ray-head"),
            ip := some ip0, port := some port1 } := by
  rw [ClusterDAO.get_ok_eq exec ns name hok, htok]
  rfl

/-- C3 witness: stdout `"10.0.0.5   8080"` for name `"x"`. -/
theorem c3_witness :
    ClusterDAO.get (fun _ => ⟨"10.0.0.5   8080", "", 0⟩) "ns" "x" =
      .ok { name := "x", host := some "x-ray-head",
            ip := some "10.0.0.5", port := some "8080" } :=
  c3_get_success "ns" "x" "10.0.0.5" "8080" (fun _ => ⟨"10.0.0.5   8080", "", 0⟩)
    (by decide) (by decide)

/-- C4: for every argument vector, `run` returns the process's stdout
unmodified exactly when the exit code is 0, and raises `CommandError`
carrying the process's stderr exactly when the exit code is non-zero;
every raised error is that `CommandError`. -/
theorem c4_run_contract (exec : Exec) (command : List String) :
    (ClusterDAO.run exec command = .ok (exec command).stdout ↔
      (exec command).returncode = 0) ∧
    (ClusterDAO.run exec command = .error (.commandError (exec command).stderr) ↔
      (exec command).returncode ≠ 0) ∧
    (∀ e, ClusterDAO.run exec command = .error e →
      e = .commandError (exec command).stderr ∧ (exec command).returncode ≠ 0) := by
  unfold ClusterDAO.run
  by_cases h : (exec command).returncode = 0 <;> simp [h]

/-- C4 witness: a succeeding and a failing concrete process. -/
theorem c4_witness :
    ClusterDAO.run (fun _ => ⟨"out", "err", 0⟩) ["kubectl"] = .ok "out" ∧
    ClusterDAO.run (fun _ => ⟨"out", "err", 1⟩) ["kubectl"] = .error (.commandError "err") :=
  ⟨(c4_run_contract (fun _ => ⟨"out", "err", 0⟩) ["kubectl"]).1.mpr (by decide),
   (c4_run_contract (fun _ => ⟨"out", "err", 1⟩) ["kubectl"]).2.1.mpr (by decide)⟩

/-- C5: for every payload name, `create` returns `{name: that name}`
whenever the installer exits 0 (stdout ignored); on any non-zero exit it
raises `CommandError` with the captured stderr; it never raises
`NotFoundError`. -/
theorem c5_create_contract (ns dataName : String) (exec : Exec) :
    ((exec (ClusterDAO.create_cluster_command ns dataName)).returncode = 0 →
      ClusterDAO.create exec ns ⟨dataName⟩ = .ok { name := dataName }) ∧
    ((exec (ClusterDAO.create_cluster_command ns dataName)).returncode ≠ 0 →
      ClusterDAO.create exec ns ⟨dataName⟩ =
        .error (.commandError (exec (ClusterDAO.create_cluster_command ns dataName)).stderr)) ∧
    (∀ m, ClusterDAO.create exec ns ⟨dataName⟩ ≠ .error (.notFoundError m)) := by
  refine ⟨fun h => ?_, fun h => ?_, fun m => ?_⟩
  · unfold ClusterDAO.create
    rw [ClusterDAO.run_ok _ _ h]
  · unfold ClusterDAO.create
    rw [ClusterDAO.run_fail _ _ h]
  · unfold ClusterDAO.create ClusterDAO.run
    by_cases h : (exec (ClusterDAO.create_cluster_command ns dataName)).returncode = 0 <;>
      simp [h]

/-- C5 witness: exit 0 with arbitrary stdout returns `{name:"foo"}`;
exit 1 raises `CommandError` with the stderr; the failure is not a
`NotFoundError` even when stderr contains `"NotFound"`. -/
theorem c5_witness :
    ClusterDAO.create (fun _ => ⟨"some helm banner", "", 0⟩) "ns" ⟨"foo"⟩ =
      .ok { name := "foo" } ∧
    ClusterDAO.create (fun _ => ⟨"", "helm failed", 1⟩) "ns" ⟨"foo"⟩ =
      .error (.commandError "helm failed") ∧
    ClusterDAO.create (fun _ => ⟨"", "NotFound", 1⟩) "ns" ⟨"foo"⟩ ≠
      .error (.notFoundError "NotFound") :=
  ⟨(c5_create_contract "ns" "foo" (fun _ => ⟨"some helm banner", "", 0⟩)).1 (by decide),
   (c5_create_contract "ns" "foo" (fun _ => ⟨"", "helm failed", 1⟩)).2.1 (by decide),
   (c5_create_contract "ns" "foo" (fun _ => ⟨"", "NotFound", 1⟩)).2.2 "NotFound"⟩

/-- C6: a failing `delete` classifies its `CommandError` text exactly as
`get` does (`NotFoundError` when the text contains `"NotFound"`, the
unchanged `CommandError` otherwise), and a successful `delete` returns
no value. -/
theorem c6_delete_classifies_like_get (ns name t : String) (exec exec2 : Exec)
    (hd : (exec (ClusterDAO.delete_cluster_command ns name)).returncode ≠ 0)
    (hds : (exec (ClusterDAO.delete_cluster_command ns name)).stderr = t)
    (hg : (exec2 (ClusterDAO.get_service_command ns name)).returncode ≠ 0)
    (hgs : (exec2 (ClusterDAO.get_service_command ns name)).stderr = t) :
    ClusterDAO.delete exec ns name =
      (if pyIn "NotFound" t then .error (.notFoundError t)
       else .error (.commandError t)) ∧
    ClusterDAO.get exec2 ns name =
      (if pyIn "NotFound" t then .error (.notFoundError t)
       else .error (.commandError t)) ∧
    (∀ exec3 : Exec,
      (exec3 (ClusterDAO.delete_cluster_command ns name)).returncode = 0 →
      ClusterDAO.delete exec3 ns name = .ok ()) := by
  refine ⟨ClusterDAO.delete_classify exec ns name t hd hds,
    ClusterDAO.get_classify exec2 ns name t hg hgs, fun exec3 h3 => ?_⟩
  unfold ClusterDAO.delete
  rw [ClusterDAO.run_ok _ _ h3]

/-- C6 witness: the same failing stderr classifies identically through
`delete` and `get`, for a `"NotFound"` text and for another text, and a
successful delete returns `()`. -/
theorem c6_witness :
    ClusterDAO.delete (fun _ => ⟨"", "rayclusters NotFound", 1⟩) "ns" "missing" =
      .error (.notFoundError "rayclusters NotFound") ∧
    ClusterDAO.get (fun _ => ⟨"", "rayclusters NotFound", 1⟩) "ns" "missing" =
      .error (.notFoundError "rayclusters NotFound") ∧
    ClusterDAO.delete (fun _ => ⟨"", "permission denied", 1⟩) "ns" "missing" =
      .error (.commandError "permission denied") ∧
    ClusterDAO.delete (fun _ => ⟨"", "", 0⟩) "ns" "present" = .ok () := by
  have h1 := c6_delete_classifies_like_get "ns" "missing" "rayclusters NotFound"
    (fun _ => ⟨"", "rayclusters NotFound", 1⟩) (fun _ => ⟨"", "rayclusters NotFound", 1⟩)
    (by decide) rfl (by decide) rfl
  have h2 := c6_delete_classifies_like_get "ns" "missing" "permission denied"
    (fun _ => ⟨"", "permission denied", 1⟩) (fun _ => ⟨"", "permission denied", 1⟩)
    (by decide) rfl (by decide) rfl
  refine ⟨?_, ?_, ?_, h1.2.2 (fun _ => ⟨"", "", 0⟩) (by decide)⟩
  · rw [h1.1]
    rfl
  · rw [h1.2.1]
    rfl
  · rw [h2.1]
    rfl

/-- C7: for every namespace, a repository bound to it places the
namespace immediately after the `-n` flag in the argument vector of all
four operations. -/
theorem c7_namespace_position (ns name dataName : String) :
    (ClusterDAO.get_clusters_command ns)[1]? = some "-n" ∧
    (ClusterDAO.get_clusters_command ns)[2]? = some ns ∧
    (ClusterDAO.get_service_command ns name)[1]? = some "-n" ∧
    (ClusterDAO.get_service_command ns name)[2]? = some ns ∧
    (ClusterDAO.create_cluster_command ns dataName)[1]? = some "-n" ∧
    (ClusterDAO.create_cluster_command ns dataName)[2]? = some ns ∧
    (ClusterDAO.delete_cluster_command ns name)[1]? = some "-n" ∧
    (ClusterDAO.delete_cluster_command ns name)[2]? = some ns :=
  ⟨rfl, rfl, rfl, rfl, rfl, rfl, rfl, rfl⟩

/-- C8 counterexample: the claim says an empty result set yields an
empty list, but `get_all` on empty stdout (exit 0) yields one record
with an empty name, not `[]`. -/
theorem c8_counterexample :
    ClusterDAO.get_all (fun _ => ⟨"", "No resources found in other namespace.", 0⟩) "other" =
      .ok [{ name := "" }] ∧
    ClusterDAO.get_all (fun _ => ⟨"", "No resources found in other namespace.", 0⟩) "other" ≠
      .ok ([] : List Cluster) := by
  constructor
  · rfl
  · intro h
    have h2 : (Except.ok [{ name := "" }] : Except PyError (List Cluster)) = .ok [] := h
    simp at h2

/-- C8 amended: `get_all` never raises `NotFoundError` for any command
outcome; a failing command propagates the `CommandError` unmodified; an
empty result set is not an error, though it yields `[{name:""}]` rather
than the empty list. -/
theorem c8_get_all_never_not_found (ns : String) (exec : Exec) :
    (∀ m, ClusterDAO.get_all exec ns ≠ .error (.notFoundError m)) ∧
    ((exec (ClusterDAO.get_clusters_command ns)).returncode ≠ 0 →
      ClusterDAO.get_all exec ns =
        .error (.commandError (exec (ClusterDAO.get_clusters_command ns)).stderr)) ∧
    ((exec (ClusterDAO.get_clusters_command ns)).returncode = 0 →
      (exec (ClusterDAO.get_clusters_command ns)).stdout = "" →
      ClusterDAO.get_all exec ns = .ok [{ name := "" }]) := by
  refine ⟨fun m => ?_, fun h => ?_, fun h hout => ?_⟩
  · unfold ClusterDAO.get_all ClusterDAO.run
    by_cases h : (exec (ClusterDAO.get_clusters_command ns)).returncode = 0 <;> simp [h]
  · unfold ClusterDAO.get_all
    rw [ClusterDAO.run_fail _ _ h]
  · unfold ClusterDAO.get_all
    rw [ClusterDAO.run_ok _ _ h, hout]
    rfl

/-- C8 witness: a concrete empty-output success is not a
`NotFoundError` but the one-record list, and a concrete failure is the
unmodified `CommandError`. -/
theorem c8_witness :
    ClusterDAO.get_all (fun _ => ⟨"", "", 0⟩) "team" ≠
      .error (.notFoundError "anything") ∧
    ClusterDAO.get_all (fun _ => ⟨"", "", 0⟩) "team" = .ok [{ name := "" }] ∧
    ClusterDAO.get_all (fun _ => ⟨"", "connection refused", 2⟩) "team" =
      .error (.commandError "connection refused") :=
  ⟨(c8_get_all_never_not_found "team" (fun _ => ⟨"", "", 0⟩)).1 "anything",
   (c8_get_all_never_not_found "team" (fun _ => ⟨"", "", 0⟩)).2.2 (by decide) rfl,
   (c8_get_all_never_not_found "team" (fun _ => ⟨"", "connection refused", 2⟩)).2.1
     (by decide)⟩

/-- C9: when the service query succeeds but its stdout holds fewer than
two whitespace-separated tokens, `get` fails with the unguarded index
access (`IndexError`), which is neither a `CommandError` nor a
`NotFoundError`. -/
theorem c9_get_short_output_index_error (ns name : String) (exec : Exec)
    (hok : (exec (ClusterDAO.get_service_command ns name)).returncode = 0)
    (hshort :
      (pySplitWs (pyStrip (exec (ClusterDAO.get_service_command ns name)).stdout)).length < 2) :
    ClusterDAO.get exec ns name = .error .indexError ∧
    (∀ m, PyError.indexError ≠ PyError.commandError m ∧
      PyError.indexError ≠ PyError.notFoundError m) := by
  refine ⟨?_, fun m => ⟨fun h => PyError.noConfusion h, fun h => PyError.noConfusion h⟩⟩
  have h1 :
      (pySplitWs (pyStrip (exec (ClusterDAO.get_service_command ns name)).stdout)).get? 1 =
        none :=
    List.get?_eq_none.mpr (by omega)
  rw [ClusterDAO.get_ok_eq exec ns name hok, h1]
  cases h0 :
      (pySplitWs (pyStrip (exec (ClusterDAO.get_service_command ns name)).stdout)).get? 0 <;>
    rfl

/-- C9 witness: empty stdout on a successful exit splits into zero
tokens, so `get` fails with the index error. -/
theorem c9_witness :
    ClusterDAO.get (fun _ => ⟨"", "", 0⟩) "ns" "x" = .error .indexError ∧
    PyError.indexError ≠ PyError.commandError "" :=
  ⟨(c9_get_short_output_index_error "ns" "x" (fun _ => ⟨"", "", 0⟩)
      (by decide) (by decide)).1,
   ((c9_get_short_output_index_error "ns" "x" (fun _ => ⟨"", "", 0⟩)
      (by decide) (by decide)).2 "").1⟩

/-- C10: the not-found classification is a case-sensitive substring test
for exactly `"NotFound"`: whenever the failing stderr does not contain
that exact substring (for example `"notfound"`, `"Not Found"`, or
`"not found"`), both `get` and `delete` raise the generic
`CommandError`, not `NotFoundError`. -/
theorem c10_classification_case_sensitive (ns name t : String) (exec exec2 : Exec)
    (hg : (exec (ClusterDAO.get_service_command ns name)).returncode ≠ 0)
    (hgs : (exec (ClusterDAO.get_service_command ns name)).stderr = t)
    (hd : (exec2 (ClusterDAO.delete_cluster_command ns name)).returncode ≠ 0)
    (hds : (exec2 (ClusterDAO.delete_cluster_command ns name)).stderr = t)
    (hno : pyIn "NotFound" t = false) :
    ClusterDAO.get exec ns name = .error (.commandError t) ∧
    ClusterDAO.delete exec2 ns name = .error (.commandError t) := by
  rw [ClusterDAO.get_classify exec ns name t hg hgs,
    ClusterDAO.delete_classify exec2 ns name t hd hds]
  simp [hno]

/-- C10 witness: the variants `"notfound"`, `"Not Found"` and
`"not found"` all classify as plain `CommandError` through both
operations. -/
theorem c10_witness :
    ClusterDAO.get (fun _ => ⟨"", "services x-ray-head notfound", 1⟩) "ns" "x" =
      .error (.commandError "services x-ray-head notfound") ∧
    ClusterDAO.delete (fun _ => ⟨"", "Not Found", 1⟩) "ns" "x" =
      .error (.commandError "Not Found") ∧
    ClusterDAO.get (fun _ => ⟨"", "not found", 1⟩) "ns" "x" =
      .error (.commandError "not found") :=
  ⟨(c10_classification_case_sensitive "ns" "x" "services x-ray-head notfound"
      (fun _ => ⟨"", "services x-ray-head notfound", 1⟩)
      (fun _ => ⟨"", "services x-ray-head notfound", 1⟩)
      (by decide) rfl (by decide) rfl (by decide)).1,
   (c10_classification_case_sensitive "ns" "x" "Not Found"
      (fun _ => ⟨"", "Not Found", 1⟩) (fun _ => ⟨"", "Not Found", 1⟩)
      (by decide) rfl (by decide) rfl (by decide)).2,
   (c10_classification_case_sensitive "ns" "x" "not found"
      (fun _ => ⟨"", "not found", 1⟩) (fun _ => ⟨"", "not found", 1⟩)
      (by decide) rfl (by decide) rfl (by decide)).1⟩
